import Mathlib

/-!
Shallow embedding of the `hass_components` repository (custom Home Assistant
integrations: `lutron_hwqsx`, `mcintosh`, `screenlogic`) and proofs about it.

Python strings are modelled as `List Char` (wrapped in `String` where
convenient); Python dicts as association lists with first-match lookup;
Python exceptions (`KeyError`, `ValueError`, `IndexError`) as `Except String`.
-/

namespace HassComponents

/-! ### Python string primitives -/

/-- Python `c in s` restricted to a single character: membership of `c` in `s`. -/
def pyContainsChar (c : Char) (s : List Char) : Bool :=
  s.contains c

/-- Helper for Python `s.startswith(pre)`: is `pre` a prefix of `s`? -/
def pyIsPrefixOf : List Char → List Char → Bool
  | [], _ => true
  | _ :: _, [] => false
  | a :: as, b :: bs => a == b && pyIsPrefixOf as bs

/-- Python `sub in s` for a general substring `sub`. -/
def pyContainsSub (sub : List Char) (s : List Char) : Bool :=
  match s with
  | [] => pyIsPrefixOf sub []
  | _ :: cs => pyIsPrefixOf sub s || pyContainsSub sub cs

/-- Python `s.split(sep, 1)` for a one-character separator, on the part of the
string that is known to contain the separator: returns the segment before the
first occurrence of `c` and everything after it. -/
def pySplitFirst (c : Char) : List Char → List Char × List Char
  | [] => ([], [])
  | x :: xs =>
    if x == c then ([], xs)
    else
      let p := pySplitFirst c xs
      (x :: p.1, p.2)

/-- Python `s.split(sep)` for a one-character separator (no maxsplit):
splits on every occurrence, keeping empty segments; `[] ↦ [[]]`. -/
def pySplitAll (c : Char) : List Char → List (List Char)
  | [] => [[]]
  | x :: xs =>
    let r := pySplitAll c xs
    if x == c then [] :: r
    else
      match r with
      | [] => [[x]]
      | h :: t => (x :: h) :: t

/-- Python slice `s[a:b]` (indices clamped to the string length). -/
def pySlice (s : List Char) (a b : Nat) : List Char :=
  (s.take b).drop a

/-- Value of a nonempty all-digit string, most significant digit first. -/
def pyDigits (s : List Char) : Option Nat :=
  if s = [] then none
  else if s.all Char.isDigit then
    some (s.foldl (fun acc c => 10 * acc + (c.toNat - 48)) 0)
  else none

/-- Python `int(s)`: strips surrounding whitespace, accepts an optional single
sign followed by a nonempty digit run, and fails (`ValueError`) otherwise.
(Digit-group underscores of Python 3.6+ are not modelled; no input considered
here contains them.) -/
def pyInt (s : List Char) : Option Int :=
  let t := ((s.dropWhile Char.isWhitespace).reverse.dropWhile Char.isWhitespace).reverse
  match t with
  | '+' :: rest => (pyDigits rest).map Int.ofNat
  | '-' :: rest => (pyDigits rest).map (fun n => -(n : Int))
  | _ => (pyDigits t).map Int.ofNat

/-- Python `d.get(k)` / `k in d` on a dict modelled as an association list:
the value at the first matching key, if any. -/
def pyGet {κ α : Type} [BEq κ] (m : List (κ × α)) (k : κ) : Option α :=
  (m.find? (fun p => p.1 == k)).map (fun p => p.2)

/-! ### `custom_components/lutron_hwqsx/const.py` -/

/-- Constant `UNASSIGNED_AREA = "Unassigned"` from `const.py`. -/
def UNASSIGNED_AREA : String := "Unassigned"

/-! ### Area/name parsing, three textual duplicates

Functions `_area_and_name_from_name` in `__init__.py`, `_area_and_name_from_name`
in `button.py` and `_button_area_and_name_from_name` in `binary_sensor.py` all
read:

    if "_" in device_name:
        area_device_name = device_name.split("_", 1)
        return area_device_name[0], area_device_name[1]
    return UNASSIGNED_AREA, device_name
-/

/-- Function `_area_and_name_from_name` from `__init__.py` (lines 282-287). -/
def _area_and_name_from_name (device_name : String) : String × String :=
  if pyContainsChar '_' device_name.data then
    let p := pySplitFirst '_' device_name.data
    (⟨p.1⟩, ⟨p.2⟩)
  else
    (UNASSIGNED_AREA, device_name)

/-- Function `_area_and_name_from_name` from `button.py` (lines 132-137). -/
def button_py_area_and_name_from_name (device_name : String) : String × String :=
  if pyContainsChar '_' device_name.data then
    let p := pySplitFirst '_' device_name.data
    (⟨p.1⟩, ⟨p.2⟩)
  else
    (UNASSIGNED_AREA, device_name)

/-- Function `_button_area_and_name_from_name` from `binary_sensor.py`
(lines 205-210). -/
def _button_area_and_name_from_name (device_name : String) : String × String :=
  if pyContainsChar '_' device_name.data then
    let p := pySplitFirst '_' device_name.data
    (⟨p.1⟩, ⟨p.2⟩)
  else
    (UNASSIGNED_AREA, device_name)

/-! ### Display names built from the parsed pair (`__init__.py`) -/

/-- Display name `f"{area} {name}"` computed in `_async_register_button_devices`
(`__init__.py` lines 264-266). -/
def registeredButtonDeviceName (device_name : String) : String :=
  let p := _area_and_name_from_name device_name
  p.1 ++ " " ++ p.2

/-- Display name `f"{area} {name}"` computed in `LutronCasetaDevice.__init__`
(`__init__.py` lines 404-406). -/
def lutronCasetaDeviceDisplayName (device_name : String) : String :=
  let p := _area_and_name_from_name device_name
  p.1 ++ " " ++ p.2

/-! ### Occupancy sensors (`binary_sensor.py`) -/

/-- Occupancy-group data used by `LutronOccupancySensor`: the vendor dict is
modelled by the one field the entity state reads. -/
structure OccupancyGroup where
  status : String
deriving DecidableEq

/-- Property `LutronOccupancySensor.is_on` (`binary_sensor.py` lines 118-121):
`self._device["status"] == OCCUPANCY_GROUP_OCCUPIED`. The vendor constant
`OCCUPANCY_GROUP_OCCUPIED` is imported from `pylutron_caseta` (external), so it
is passed as the parameter `occupancy_group_occupied`. -/
def LutronOccupancySensor.is_on (occupancy_group_occupied : String)
    (device : OccupancyGroup) : Bool :=
  device.status == occupancy_group_occupied

/-! ### Keypad button entities (`button.py`) -/

/-- Constant `SEETOUCH_BUTTON_NAME_DEFAULT_PATTERN = "Button "`. -/
def SEETOUCH_BUTTON_NAME_DEFAULT_PATTERN : String := "Button "

/-- Constant `SEETOUCH_BUTTON_NAME_LOWER = "Button 18"`. -/
def SEETOUCH_BUTTON_NAME_LOWER : String := "Button 18"

/-- Constant `SEETOUCH_BUTTON_NAME_RAISE = "Button 19"`. -/
def SEETOUCH_BUTTON_NAME_RAISE : String := "Button 19"

/-- The button-name rewrite at the start of `LutronCasetaButton.__init__`
(`button.py` lines 92-96): `"Button 18" ↦ "Lower"`, `"Button 19" ↦ "Raise"`. -/
def lutronCasetaButtonName (button_name : String) : String :=
  if button_name == SEETOUCH_BUTTON_NAME_LOWER then "Lower"
  else if button_name == SEETOUCH_BUTTON_NAME_RAISE then "Raise"
  else button_name

/-- Attribute `_attr_entity_registry_enabled_default` as computed in
`LutronCasetaButton.__init__` (`button.py` lines 98-102): the check runs on the
already-rewritten button name. -/
def lutronCasetaButtonEnabledDefault (button_name : String) : Bool :=
  let bn := lutronCasetaButtonName button_name
  if pyContainsSub SEETOUCH_BUTTON_NAME_DEFAULT_PATTERN.data bn.data then
    false
  else
    true

/-! ### Button-device registration (`__init__.py`) -/

/-- A device-registry identifier value: the code puts either the parent
device's registry id (a string) or the device's serial (an int) in the
`(DOMAIN, _)` identifier tuple. -/
inductive HassIdent where
  | str : String → HassIdent
  | num : Int → HassIdent
deriving DecidableEq

/-- The fields of a vendor button-device dict read by
`_async_register_button_devices`. -/
structure ButtonDevice where
  serial : Option Int
  button_group : Option String
  type : String
  name : String
deriving DecidableEq

/-- The fields of a parent (control-station) device dict reached through
`button_group_to_device_map`. -/
structure ParentDevice where
  device_id : String
  control_station_name : String
deriving DecidableEq

/-- Constant `QSX_KEYPADS` from `__init__.py` line 94. -/
def QSX_KEYPADS : List String :=
  ["SeeTouchHybridKeypad", "HomeownerKeypad", "SeeTouchTabletopKeypad",
   "Pico3ButtonRaiseLower"]

/-- Lines 248-249 of `__init__.py`: when a device has no serial but has a
button group, its serial is defaulted to `int(device[ATTR_BUTTON_GROUP])`. -/
def fillSerial (d : ButtonDevice) : Except String ButtonDevice :=
  match d.serial, d.button_group with
  | none, some bg =>
    match pyInt bg.data with
    | none => Except.error "ValueError"
    | some n => Except.ok { d with serial := some n }
  | _, _ => Except.ok d

/-- The per-device body of `_async_register_button_devices` (`__init__.py`
lines 247-276), for one device of `button_devices_by_id`: returns the
registry identifier value, the display name, and the `via_device` identifier
value passed to `device_registry.async_get_or_create`. Failed dict lookups
raise `KeyError`, modelled as errors. -/
def _async_register_button_devices (button_group_to_device_map : List (String × ParentDevice))
    (bridge_serial : Int) (d : ButtonDevice) :
    Except String (HassIdent × String × HassIdent) :=
  match fillSerial d with
  | Except.error e => Except.error e
  | Except.ok d =>
    match d.serial with
    | none => Except.error "KeyError"
    | some serial =>
      if QSX_KEYPADS.contains d.type then
        match d.button_group with
        | none => Except.error "KeyError"
        | some bg =>
          match pyGet button_group_to_device_map bg with
          | none => Except.error "KeyError"
          | some parent_device =>
            Except.ok (HassIdent.str parent_device.device_id,
              registeredButtonDeviceName d.name, HassIdent.num bridge_serial)
      else
        Except.ok (HassIdent.num serial,
          registeredButtonDeviceName d.name, HassIdent.num bridge_serial)

/-! ### LIP button lookup (`__init__.py` lines 290-299)

The two lookup tables live in `device_trigger.py`, which only their structure
matters for here; they are passed as association-list parameters. -/

/-- Function `async_get_lip_button` from `__init__.py` (lines 290-299).
`Except.ok none` models `return None`; `Except.error` models a `KeyError`
escaping from the final chained subscripts. -/
def async_get_lip_button (device_type_subtype_map_to_lip : List (String × List (String × Int)))
    (leap_to_device_type_subtype_map : List (String × List (Int × String)))
    (device_type : String) (leap_button : Int) : Except String (Option Int) :=
  match pyGet device_type_subtype_map_to_lip device_type with
  | none => Except.ok none
  | some lip_buttons_name_to_num =>
    match pyGet leap_to_device_type_subtype_map device_type with
    | none => Except.ok none
    | some leap_button_num_to_name =>
      match pyGet leap_button_num_to_name leap_button with
      | none => Except.error "KeyError"
      | some subtype_name =>
        match pyGet lip_buttons_name_to_num subtype_name with
        | none => Except.error "KeyError"
        | some num => Except.ok (some num)

/-! ### Occupancy-group unique-id migration (`__init__.py` lines 120-144) -/

/-- The literal `"occupancygroup_"` as a character list. -/
def occupancygroupTag : List Char := ("occupancygroup_").data

/-- The `_async_migrator` closure of `_async_migrate_unique_ids` (`__init__.py`
lines 128-142), restricted to the new-unique-id computation: `none` models
`return None` (no change), `some new` models `return {"new_unique_id": new}`.
The fallthrough of the final match models the `IndexError` branch of
`unique_id.split("_")[1]`, unreachable because the prefix check guarantees an
underscore. -/
def _async_migrator (bridge_unique_id : List Char) (unique_id : List Char) :
    Option (List Char) :=
  if unique_id = [] then none
  else if ¬ pyIsPrefixOf occupancygroupTag unique_id then none
  else if pyIsPrefixOf (occupancygroupTag ++ bridge_unique_id) unique_id then none
  else
    match pySplitAll '_' unique_id with
    | _ :: sensor_id :: _ =>
      some (occupancygroupTag ++ bridge_unique_id ++ '_' :: sensor_id)
    | _ => none

/-- Application of the migrator as the host registry does: keep the old
unique id when the migrator returns no change. -/
def applyMigrator (bridge_unique_id : List Char) (unique_id : List Char) : List Char :=
  (_async_migrator bridge_unique_id unique_id).getD unique_id

/-! ### McIntosh volume response (`mcintosh/media_player.py` lines 239-247) -/

/-- The two volume fields of `McIntoshDevice` that
`handle_volume_response` writes. -/
structure McIntoshVolumeState where
  volume_max : Int
  volume : Int
deriving DecidableEq

/-- The literal `"MVMAX "` as a character list. -/
def mvmaxHeader : List Char := ("MVMAX ").data

/-- The literal `"MV"` as a character list. -/
def mvHeader : List Char := ("MV").data

/-- One iteration of the loop in `handle_volume_response`:
`MVMAX `-lines set `_volume_max` from `line[6:8]`, other `MV`-lines set
`_volume` from `line[2:4]`, anything else is skipped; a non-numeric slice
raises `ValueError`. -/
def handleVolumeLine (st : McIntoshVolumeState) (line : List Char) :
    Except String McIntoshVolumeState :=
  if pyIsPrefixOf mvmaxHeader line then
    match pyInt (pySlice line 6 8) with
    | none => Except.error "ValueError"
    | some v => Except.ok { st with volume_max := v }
  else if pyIsPrefixOf mvHeader line then
    match pyInt (pySlice line 2 4) with
    | none => Except.error "ValueError"
    | some v => Except.ok { st with volume := v }
  else
    Except.ok st

/-- Method `McIntoshDevice.handle_volume_response` (`media_player.py` lines
239-247): fold the loop over the response lines, then `return self._volume`.
The result pairs the final field values with the returned volume. -/
def handle_volume_response (st : McIntoshVolumeState) (response : List (List Char)) :
    Except String (McIntoshVolumeState × Int) :=
  match response with
  | [] => Except.ok (st, st.volume)
  | line :: rest =>
    match handleVolumeLine st line with
    | Except.error e => Except.error e
    | Except.ok st1 => handle_volume_response st1 rest

/-- Classifier for lines taking the `MVMAX ` branch. -/
def isMVMAXLine (line : List Char) : Bool :=
  pyIsPrefixOf mvmaxHeader line

/-- Classifier for lines taking the plain `MV` branch (not `MVMAX `-lines). -/
def isMVLine (line : List Char) : Bool :=
  !pyIsPrefixOf mvmaxHeader line && pyIsPrefixOf mvHeader line

/-! ### ScreenLogic pump presets (`screenlogic/number.py`) -/

/-- The fields of a pump-preset dict read by `ScreenLogicPumpPreset`. -/
structure PumpPreset where
  cid : Int
  setPoint : Int
deriving DecidableEq

/-- Method `ScreenLogicPumpPreset._is_valid_pumpflow` (`number.py` lines
154-161): `1000 <= flow <= 3450` for RPM presets, `20 <= flow <= 90` for GPM. -/
def _is_valid_pumpflow (flow : Int) (isRPMs : Bool) : Bool :=
  if isRPMs then
    decide (1000 ≤ flow) && decide (flow ≤ 3450)
  else
    decide (20 ≤ flow) && decide (flow ≤ 90)

/-- Method `ScreenLogicPumpPreset._is_valid_preset` (`number.py` lines
163-167): the preset must be a key of the presets dict and its `cid` must be
nonzero. -/
def _is_valid_preset (presets : List (Int × PumpPreset)) (preset : Int) : Bool :=
  match pyGet presets preset with
  | none => false
  | some p => p.cid != 0

/-- Method `ScreenLogicPumpPreset.async_set_preset` (`number.py` lines
140-152) after the `int(preset_id)` conversion. `Except.error` models the two
`raise ValueError` paths, taken before any gateway traffic; `Except.ok b`
models the request path, where `connect_ok` and `request_ok` stand for the
externally-determined results of `async_connect` and
`async_request_set_pump_flow`. -/
def async_set_preset (presets : List (Int × PumpPreset)) (preset : Int)
    (flow : Int) (isRPMs : Bool) (connect_ok request_ok : Bool) :
    Except String Bool :=
  if ¬ _is_valid_preset presets preset then
    Except.error "Invalid preset"
  else if ¬ _is_valid_pumpflow flow isRPMs then
    Except.error "Invalid flow"
  else if connect_ok && request_ok then
    Except.ok true
  else
    Except.ok false

/-! ## Helper lemmas -/

theorem pySplitFirst_append (a b : List Char) (ha : '_' ∉ a) :
    pySplitFirst '_' (a ++ '_' :: b) = (a, b) := by
  induction a with
  | nil => simp [pySplitFirst]
  | cons x xs ih =>
    have hx : x ≠ '_' := by
      intro h; exact ha (h ▸ List.mem_cons_self x xs)
    have hxs : '_' ∉ xs := fun h => ha (List.mem_cons_of_mem x h)
    simp only [List.cons_append, pySplitFirst, ih hxs]
    simp [hx, ih hxs]

theorem pyContainsChar_append_mid (a b : List Char) :
    pyContainsChar '_' (a ++ '_' :: b) = true := by
  simp [pyContainsChar, List.contains_eq_any_beq]

theorem pyContainsChar_eq_mem (c : Char) (s : List Char) :
    pyContainsChar c s = true ↔ c ∈ s := by
  simp [pyContainsChar, List.contains_eq_any_beq]

theorem string_data_append (a b : String) : (a ++ b).data = a.data ++ b.data := by
  cases a; cases b; rfl

theorem pyIsPrefixOf_append (a b : List Char) : pyIsPrefixOf a (a ++ b) = true := by
  induction a with
  | nil => simp [pyIsPrefixOf]
  | cons x xs ih => simp [pyIsPrefixOf, ih]

/-! ## Claim theorems -/

/-- C1: for every device-name string, the area/name parser returns the pair
(segment before the first underscore, everything after the first underscore)
when the string contains an underscore — later underscores stay in the name
part — and `("Unassigned", s)` when it contains none. -/
theorem c1_area_and_name_from_name_spec (a b s : List Char)
    (ha : '_' ∉ a) (hs : '_' ∉ s) :
    _area_and_name_from_name ⟨a ++ '_' :: b⟩ = (⟨a⟩, ⟨b⟩) ∧
    _area_and_name_from_name ⟨s⟩ = (UNASSIGNED_AREA, ⟨s⟩) := by
  constructor
  · have hc : pyContainsChar '_' (String.mk (a ++ '_' :: b)).data = true :=
      pyContainsChar_append_mid a b
    simp only [_area_and_name_from_name, hc, if_true]
    rw [pySplitFirst_append a b ha]
  · have hc : pyContainsChar '_' (String.mk s).data = false :=
      Bool.eq_false_iff.mpr (fun h => hs ((pyContainsChar_eq_mem '_' s).mp h))
    simp [_area_and_name_from_name, hc]

/-- Witness for C1 at concrete inputs: `"Kitchen_Main_Light"` splits at the
first underscore only, `"Lamp"` falls back to the `"Unassigned"` area. -/
theorem c1_area_and_name_from_name_spec_witness :
    _area_and_name_from_name ⟨("Kitchen").data ++ '_' :: ("Main_Light").data⟩ =
      (⟨("Kitchen").data⟩, ⟨("Main_Light").data⟩) ∧
    _area_and_name_from_name ⟨("Lamp").data⟩ = (UNASSIGNED_AREA, ⟨("Lamp").data⟩) :=
  c1_area_and_name_from_name_spec (("Kitchen").data) (("Main_Light").data)
    (("Lamp").data) (by decide) (by decide)

/-- C2: the three privately duplicated parsing functions (`__init__.py`,
`button.py`, `binary_sensor.py`) are extensionally equal: every input string
yields the same (area, name) pair from all three. -/
theorem c2_parsers_extensionally_equal (s : String) :
    button_py_area_and_name_from_name s = _area_and_name_from_name s ∧
    _button_area_and_name_from_name s = _area_and_name_from_name s :=
  ⟨rfl, rfl⟩

/-- C6: `LutronOccupancySensor.is_on` is true iff the group's status equals
the vendor constant `OCCUPANCY_GROUP_OCCUPIED`; every other status gives
false. -/
theorem c6_occupancy_is_on_iff (occupancy_group_occupied : String)
    (d : OccupancyGroup) :
    LutronOccupancySensor.is_on occupancy_group_occupied d = true ↔
      d.status = occupancy_group_occupied := by
  simp [LutronOccupancySensor.is_on]

/-- C7: both display names are the parsed area, one space, and the parsed
name concatenated, and on the fallback parse the display name starts with
`"Unassigned "`. -/
theorem c7_display_name_spec (s : String) :
    registeredButtonDeviceName s =
      (_area_and_name_from_name s).1 ++ " " ++ (_area_and_name_from_name s).2 ∧
    lutronCasetaDeviceDisplayName s = registeredButtonDeviceName s ∧
    ('_' ∉ s.data →
      pyIsPrefixOf (UNASSIGNED_AREA ++ " ").data
        (registeredButtonDeviceName s).data = true) := by
  refine ⟨rfl, rfl, fun hs => ?_⟩
  have hc : pyContainsChar '_' s.data = false :=
    Bool.eq_false_iff.mpr (fun h => hs ((pyContainsChar_eq_mem '_' s.data).mp h))
  simp only [registeredButtonDeviceName, _area_and_name_from_name, hc,
    Bool.false_eq_true, if_false]
  rw [string_data_append]
  exact pyIsPrefixOf_append _ _

/-- Witness for C7: the display name of a device named `"Lamp"` (no
underscore) starts with `"Unassigned "`. -/
theorem c7_display_name_spec_witness :
    pyIsPrefixOf (UNASSIGNED_AREA ++ " ").data
      (registeredButtonDeviceName ("Lamp")).data = true :=
  (c7_display_name_spec ("Lamp")).2.2 (by decide)

/-- C10: `"Button 18"` and `"Button 19"` are renamed to `"Lower"` and
`"Raise"` and stay enabled by default; every other button name is
entity-registry enabled exactly when it does not contain `"Button "`. -/
theorem c10_button_rename_and_enabled :
    lutronCasetaButtonName SEETOUCH_BUTTON_NAME_LOWER = ("Lower") ∧
    lutronCasetaButtonEnabledDefault SEETOUCH_BUTTON_NAME_LOWER = true ∧
    lutronCasetaButtonName SEETOUCH_BUTTON_NAME_RAISE = ("Raise") ∧
    lutronCasetaButtonEnabledDefault SEETOUCH_BUTTON_NAME_RAISE = true ∧
    ∀ s : String, s ≠ SEETOUCH_BUTTON_NAME_LOWER → s ≠ SEETOUCH_BUTTON_NAME_RAISE →
      lutronCasetaButtonEnabledDefault s =
        !pyContainsSub SEETOUCH_BUTTON_NAME_DEFAULT_PATTERN.data s.data := by
  refine ⟨by decide, by decide, by decide, by decide, fun s h1 h2 => ?_⟩
  simp only [lutronCasetaButtonEnabledDefault, lutronCasetaButtonName,
    beq_iff_eq, h1, h2, if_false]
  cases h : pyContainsSub SEETOUCH_BUTTON_NAME_DEFAULT_PATTERN.data s.data <;>
    simp [h]

/-- Witness for C10: `"Button 4"` (contains `"Button "`) is disabled by
default, `"Scene A"` is enabled by default. -/
theorem c10_button_rename_and_enabled_witness :
    lutronCasetaButtonEnabledDefault ("Button 4") =
      !pyContainsSub SEETOUCH_BUTTON_NAME_DEFAULT_PATTERN.data (("Button 4") : String).data ∧
    lutronCasetaButtonEnabledDefault ("Scene A") =
      !pyContainsSub SEETOUCH_BUTTON_NAME_DEFAULT_PATTERN.data (("Scene A") : String).data :=
  ⟨c10_button_rename_and_enabled.2.2.2.2 ("Button 4") (by decide) (by decide),
   c10_button_rename_and_enabled.2.2.2.2 ("Scene A") (by decide) (by decide)⟩

/-- C5: `async_get_lip_button` returns None exactly when the device type is
missing from either lookup table; when the type is present and the chained
subscripts hit, it returns the number reached by mapping the LEAP button to a
subtype name and that name to a LIP number. -/
theorem c5_async_get_lip_button_spec
    (lipMap : List (String × List (String × Int)))
    (leapMap : List (String × List (Int × String)))
    (device_type : String) (leap_button : Int) :
    (async_get_lip_button lipMap leapMap device_type leap_button = Except.ok none ↔
      pyGet lipMap device_type = none ∨ pyGet leapMap device_type = none) ∧
    (∀ lip leap subtype_name num,
      pyGet lipMap device_type = some lip →
      pyGet leapMap device_type = some leap →
      pyGet leap leap_button = some subtype_name →
      pyGet lip subtype_name = some num →
      async_get_lip_button lipMap leapMap device_type leap_button =
        Except.ok (some num)) := by
  constructor
  · rcases h1 : pyGet lipMap device_type with _ | lip
    · simp [async_get_lip_button, h1]
    · rcases h2 : pyGet leapMap device_type with _ | leap
      · simp [async_get_lip_button, h1, h2]
      · rcases h3 : pyGet leap leap_button with _ | nm
        · simp [async_get_lip_button, h1, h2, h3]
        · rcases h4 : pyGet lip nm with _ | num
          · simp [async_get_lip_button, h1, h2, h3, h4]
          · simp [async_get_lip_button, h1, h2, h3, h4]
  · intro lip leap nm num e1 e2 e3 e4
    simp [async_get_lip_button, e1, e2, e3, e4]

/-- Witness for C5 on concrete one-entry tables: LEAP button 0 of a present
device type maps through the subtype name to LIP number 2. -/
theorem c5_async_get_lip_button_spec_witness :
    async_get_lip_button [(("Pico2Button"), [(("on"), (2 : Int))])]
      [(("Pico2Button"), [((0 : Int), ("on"))])] ("Pico2Button") 0 =
      Except.ok (some 2) :=
  (c5_async_get_lip_button_spec [(("Pico2Button"), [(("on"), (2 : Int))])]
      [(("Pico2Button"), [((0 : Int), ("on"))])] ("Pico2Button") 0).2
    [(("on"), (2 : Int))] [((0 : Int), ("on"))] ("on") 2 rfl rfl rfl rfl

/-- C8: `async_set_preset` raises `ValueError` — before any set-pump-flow
request — exactly when the preset id is not a key of the presets dict, or its
`cid` is 0, or the flow is outside [1000, 3450] for RPM presets or outside
[20, 90] for GPM presets; on valid arguments it does not raise. -/
theorem c8_async_set_preset_spec (presets : List (Int × PumpPreset))
    (preset flow : Int) (isRPMs connect_ok request_ok : Bool) :
    (∃ e, async_set_preset presets preset flow isRPMs connect_ok request_ok =
        Except.error e) ↔
      pyGet presets preset = none ∨
      (∃ p, pyGet presets preset = some p ∧ p.cid = 0) ∨
      (isRPMs = true ∧ (flow < 1000 ∨ 3450 < flow)) ∨
      (isRPMs = false ∧ (flow < 20 ∨ 90 < flow)) := by
  rcases hp : pyGet presets preset with _ | p
  · simp [async_set_preset, _is_valid_preset, hp]
  · by_cases hcid : p.cid = 0
    · simp [async_set_preset, _is_valid_preset, hp, hcid]
    · have hpr : _is_valid_preset presets preset = true := by
        simp [_is_valid_preset, hp, hcid]
      cases isRPMs
      · by_cases h1 : 20 ≤ flow <;> by_cases h2 : flow ≤ 90 <;>
          cases connect_ok <;> cases request_ok <;>
          simp [async_set_preset, _is_valid_pumpflow, hpr, h1, h2, hp, hcid] <;>
          omega
      · by_cases h1 : 1000 ≤ flow <;> by_cases h2 : flow ≤ 3450 <;>
          cases connect_ok <;> cases request_ok <;>
          simp [async_set_preset, _is_valid_pumpflow, hpr, h1, h2, hp, hcid] <;>
          omega

theorem fillSerial_preserves (d d' : ButtonDevice)
    (h : fillSerial d = Except.ok d') :
    d'.button_group = d.button_group ∧ d'.type = d.type ∧ d'.name = d.name := by
  rcases hds : d.serial with _ | s <;> rcases hbg : d.button_group with _ | bg <;>
    simp only [fillSerial, hds, hbg] at h
  · injection h with h; subst h; simp [hbg]
  · rcases hpi : pyInt bg.data with _ | n <;> simp only [hpi] at h
    · cases h
    · injection h with h; subst h; simp [hbg]
  · injection h with h; subst h; simp [hbg]
  · injection h with h; subst h; simp [hbg]

/-- C3: for a registered button device, when the device type is a QSX keypad
type and the button group is a key of the button-group-to-device map, the
registry identifier is the parent device's `device_id` from that map;
otherwise it is the device's own serial. In both cases the `via_device`
identifier is the bridge device's serial. -/
theorem c3_register_button_device_spec
    (button_group_to_device_map : List (String × ParentDevice))
    (bridge_serial : Int) (d d' : ButtonDevice) (s : Int)
    (hfill : fillSerial d = Except.ok d') (hs : d'.serial = some s) :
    (∀ bg parent, QSX_KEYPADS.contains d.type = true →
      d.button_group = some bg →
      pyGet button_group_to_device_map bg = some parent →
      _async_register_button_devices button_group_to_device_map bridge_serial d =
        Except.ok (HassIdent.str parent.device_id,
          registeredButtonDeviceName d.name, HassIdent.num bridge_serial)) ∧
    (QSX_KEYPADS.contains d.type = false →
      _async_register_button_devices button_group_to_device_map bridge_serial d =
        Except.ok (HassIdent.num s,
          registeredButtonDeviceName d.name, HassIdent.num bridge_serial)) := by
  obtain ⟨hbg', hty', hnm'⟩ := fillSerial_preserves d d' hfill
  constructor
  · intro bg parent hq hbg hmap
    simp only [_async_register_button_devices, hfill, hs, hty', hbg', hnm', hq,
      hbg, hmap, if_true]
  · intro hq
    simp only [_async_register_button_devices, hfill, hs, hty', hnm', hq,
      Bool.false_eq_true, if_false]

/-- Witness for C3: a QSX keypad device without a serial, in button group
`"5"`, registers under its parent control station's registry id, with the
bridge serial as `via_device`; a non-QSX device registers under its own
serial. -/
theorem c3_register_button_device_spec_witness :
    _async_register_button_devices [(("5"), ⟨("P1"), ("Hall_CS")⟩)] 77
        ⟨none, some ("5"), ("HomeownerKeypad"), ("Hall_Keypad 1")⟩ =
      Except.ok (HassIdent.str ("P1"),
        registeredButtonDeviceName ("Hall_Keypad 1"), HassIdent.num 77) ∧
    _async_register_button_devices [] 77
        ⟨some 42, none, ("Pico2Button"), ("Den_Remote")⟩ =
      Except.ok (HassIdent.num 42,
        registeredButtonDeviceName ("Den_Remote"), HassIdent.num 77) :=
  ⟨(c3_register_button_device_spec [(("5"), ⟨("P1"), ("Hall_CS")⟩)] 77
      ⟨none, some ("5"), ("HomeownerKeypad"), ("Hall_Keypad 1")⟩
      ⟨some 5, some ("5"), ("HomeownerKeypad"), ("Hall_Keypad 1")⟩ 5 rfl rfl).1
      ("5") ⟨("P1"), ("Hall_CS")⟩ (by decide) rfl rfl,
   (c3_register_button_device_spec [] 77
      ⟨some 42, none, ("Pico2Button"), ("Den_Remote")⟩
      ⟨some 42, none, ("Pico2Button"), ("Den_Remote")⟩ 42 rfl rfl).2 (by decide)⟩

theorem _async_migrator_none_of_prefixed (bridge uid : List Char)
    (h : pyIsPrefixOf (occupancygroupTag ++ bridge) uid = true) :
    _async_migrator bridge uid = none := by
  by_cases h1 : uid = [] <;> simp [_async_migrator, h1, h]

theorem _async_migrator_some_shape (bridge uid out : List Char)
    (h : _async_migrator bridge uid = some out) :
    ∃ sid, out = occupancygroupTag ++ bridge ++ '_' :: sid := by
  by_cases h1 : uid = []
  · simp [_async_migrator, h1] at h
  · by_cases h2 : pyIsPrefixOf occupancygroupTag uid = true
    · by_cases h3 : pyIsPrefixOf (occupancygroupTag ++ bridge) uid = true
      · simp [_async_migrator, h1, h2, h3] at h
      · rcases hsp : pySplitAll '_' uid with _ | ⟨a, _ | ⟨sid, rest⟩⟩ <;>
          simp [_async_migrator, h1, h2, h3, hsp] at h
        exact ⟨sid, h.symm⟩
    · simp [_async_migrator, h1, h2] at h

/-- C9: the occupancy-group unique-id migrator returns no change for an empty
unique id, for one without the `occupancygroup_` marker, and for one already
carrying the bridge-scoped marker; any new id it produces starts with the
bridge-scoped marker, so the migrator maps its own output to no change, and
applying the migration twice equals applying it once. -/
theorem c9_migrator_idempotent (bridge : List Char) :
    _async_migrator bridge [] = none ∧
    (∀ uid, pyIsPrefixOf occupancygroupTag uid = false →
      _async_migrator bridge uid = none) ∧
    (∀ uid, pyIsPrefixOf (occupancygroupTag ++ bridge) uid = true →
      _async_migrator bridge uid = none) ∧
    (∀ uid out, _async_migrator bridge uid = some out →
      pyIsPrefixOf (occupancygroupTag ++ bridge) out = true ∧
      _async_migrator bridge out = none) ∧
    (∀ uid, applyMigrator bridge (applyMigrator bridge uid) =
      applyMigrator bridge uid) := by
  have hshape := _async_migrator_some_shape bridge
  have hpref := _async_migrator_none_of_prefixed bridge
  refine ⟨by simp [_async_migrator], fun uid h => ?_,
    fun uid h => hpref uid h, fun uid out h => ?_, fun uid => ?_⟩
  · by_cases h1 : uid = [] <;> simp [_async_migrator, h1, h]
  · obtain ⟨sid, rfl⟩ := hshape uid out h
    exact ⟨pyIsPrefixOf_append _ _, hpref _ (pyIsPrefixOf_append _ _)⟩
  · rcases h : _async_migrator bridge uid with _ | out
    · simp [applyMigrator, h]
    · obtain ⟨sid, rfl⟩ := hshape uid out h
      have hp : pyIsPrefixOf (occupancygroupTag ++ bridge)
          (occupancygroupTag ++ (bridge ++ '_' :: sid)) = true := by
        rw [← List.append_assoc]; exact pyIsPrefixOf_append _ _
      simp [applyMigrator, h, hpref _ hp]

/-- Witness for C9: migrating `"occupancygroup_5_7"` on bridge `"ab"` yields
`"occupancygroup_ab_5"`, which carries the bridge-scoped marker and is mapped
to no change by a second migration. -/
theorem c9_migrator_idempotent_witness :
    pyIsPrefixOf (occupancygroupTag ++ ("ab").data)
      (("occupancygroup_ab_5").data) = true ∧
    _async_migrator (("ab").data) (("occupancygroup_ab_5").data) = none :=
  (c9_migrator_idempotent (("ab").data)).2.2.2.1 (("occupancygroup_5_7").data)
    (("occupancygroup_ab_5").data) (by decide)

/-- C4: over a list of response lines, `handle_volume_response` sets
`_volume_max` from `line[6:8]` of every `"MVMAX "`-line and `_volume` from
`line[2:4]` of every other `"MV"`-line (only two characters are taken), leaves
both fields unchanged on lines matching neither prefix, lets the last matching
line of each kind win, and returns the final `_volume`. -/
theorem c4_handle_volume_response_spec (st0 : McIntoshVolumeState)
    (lines : List (List Char)) (st' : McIntoshVolumeState) (r : Int)
    (h : handle_volume_response st0 lines = Except.ok (st', r)) :
    r = st'.volume ∧
    ((lines.filter isMVMAXLine).getLast? = none →
      st'.volume_max = st0.volume_max) ∧
    (∀ l, (lines.filter isMVMAXLine).getLast? = some l →
      pyInt (pySlice l 6 8) = some st'.volume_max) ∧
    ((lines.filter isMVLine).getLast? = none → st'.volume = st0.volume) ∧
    (∀ l, (lines.filter isMVLine).getLast? = some l →
      pyInt (pySlice l 2 4) = some st'.volume) := by
  induction lines generalizing st0 with
  | nil =>
    simp only [handle_volume_response, Except.ok.injEq, Prod.mk.injEq] at h
    obtain ⟨rfl, rfl⟩ := h
    exact ⟨rfl, fun _ => rfl, fun l hl => by simp at hl, fun _ => rfl,
      fun l hl => by simp at hl⟩
  | cons line rest ih =>
    by_cases hmax : pyIsPrefixOf mvmaxHeader line = true
    · rcases hp : pyInt (pySlice line 6 8) with _ | v
      · simp [handle_volume_response, handleVolumeLine, hmax, hp] at h
      · have h' : handle_volume_response { st0 with volume_max := v } rest =
            Except.ok (st', r) := by
          simpa [handle_volume_response, handleVolumeLine, hmax, hp] using h
        obtain ⟨hr, hm1, hm2, hv1, hv2⟩ := ih _ h'
        have hfmax : (line :: rest).filter isMVMAXLine =
            line :: rest.filter isMVMAXLine := by
          simp [List.filter_cons, isMVMAXLine, hmax]
        have hfmv : (line :: rest).filter isMVLine = rest.filter isMVLine := by
          simp [List.filter_cons, isMVLine, hmax]
        refine ⟨hr, ?_, ?_, ?_, ?_⟩
        · rw [hfmax, List.getLast?_cons]; intro hc; simp at hc
        · rw [hfmax, List.getLast?_cons]
          intro l hl
          rcases hrf : (rest.filter isMVMAXLine).getLast? with _ | a
          · rw [hrf] at hl; simp at hl; subst hl
            exact hp.trans (congrArg some (hm1 hrf).symm)
          · rw [hrf] at hl; simp at hl; subst hl
            exact hm2 a hrf
        · rw [hfmv]; intro hn; exact (hv1 hn).trans rfl
        · rw [hfmv]; exact hv2
    · by_cases hmv : pyIsPrefixOf mvHeader line = true
      · rcases hp : pyInt (pySlice line 2 4) with _ | v
        · simp [handle_volume_response, handleVolumeLine, hmax, hmv, hp] at h
        · have h' : handle_volume_response { st0 with volume := v } rest =
              Except.ok (st', r) := by
            simpa [handle_volume_response, handleVolumeLine, hmax, hmv, hp] using h
          obtain ⟨hr, hm1, hm2, hv1, hv2⟩ := ih _ h'
          have hfmax : (line :: rest).filter isMVMAXLine =
              rest.filter isMVMAXLine := by
            simp [List.filter_cons, isMVMAXLine, hmax]
          have hfmv : (line :: rest).filter isMVLine =
              line :: rest.filter isMVLine := by
            simp [List.filter_cons, isMVLine, hmax, hmv]
          refine ⟨hr, ?_, ?_, ?_, ?_⟩
          · rw [hfmax]; intro hn; exact (hm1 hn).trans rfl
          · rw [hfmax]; exact hm2
          · rw [hfmv, List.getLast?_cons]; intro hc; simp at hc
          · rw [hfmv, List.getLast?_cons]
            intro l hl
            rcases hrf : (rest.filter isMVLine).getLast? with _ | a
            · rw [hrf] at hl; simp at hl; subst hl
              exact hp.trans (congrArg some (hv1 hrf).symm)
            · rw [hrf] at hl; simp at hl; subst hl
              exact hv2 a hrf
      · have h' : handle_volume_response st0 rest = Except.ok (st', r) := by
          simpa [handle_volume_response, handleVolumeLine, hmax, hmv] using h
        obtain ⟨hr, hm1, hm2, hv1, hv2⟩ := ih _ h'
        have hfmax : (line :: rest).filter isMVMAXLine =
            rest.filter isMVMAXLine := by
          simp [List.filter_cons, isMVMAXLine, hmax]
        have hfmv : (line :: rest).filter isMVLine = rest.filter isMVLine := by
          simp [List.filter_cons, isMVLine, hmax, hmv]
        exact ⟨hr, by rw [hfmax]; exact hm1, by rw [hfmax]; exact hm2,
          by rw [hfmv]; exact hv1, by rw [hfmv]; exact hv2⟩

/-- Witness for C4 on a concrete response: in
`["MV45", "MVMAX 68", "MV23HALF"]` the last lines of each kind win, the
half-volume suffix is ignored, and the final volume is returned. -/
theorem c4_handle_volume_response_spec_witness :
    (23 : Int) = (⟨68, 23⟩ : McIntoshVolumeState).volume ∧
    (([("MV45").data, ("MVMAX 68").data, ("MV23HALF").data].filter
        isMVMAXLine).getLast? = none →
      (⟨68, 23⟩ : McIntoshVolumeState).volume_max =
        (⟨0, 0⟩ : McIntoshVolumeState).volume_max) ∧
    (∀ l, ([("MV45").data, ("MVMAX 68").data, ("MV23HALF").data].filter
        isMVMAXLine).getLast? = some l →
      pyInt (pySlice l 6 8) = some (⟨68, 23⟩ : McIntoshVolumeState).volume_max) ∧
    (([("MV45").data, ("MVMAX 68").data, ("MV23HALF").data].filter
        isMVLine).getLast? = none →
      (⟨68, 23⟩ : McIntoshVolumeState).volume =
        (⟨0, 0⟩ : McIntoshVolumeState).volume) ∧
    (∀ l, ([("MV45").data, ("MVMAX 68").data, ("MV23HALF").data].filter
        isMVLine).getLast? = some l →
      pyInt (pySlice l 2 4) = some (⟨68, 23⟩ : McIntoshVolumeState).volume) :=
  c4_handle_volume_response_spec ⟨0, 0⟩
    [("MV45").data, ("MVMAX 68").data, ("MV23HALF").data] ⟨68, 23⟩ 23 rfl

end HassComponents
